import Mathlib

/-!
Shallow embedding of the OCR HTTP service (`app.py`) of the
PaddleOCR-FastApi-Docker-Spanish repository, together with proofs of the
behavioural claims about it.

External collaborators (the RapidOCR engine, the PDF rasterizer
`convert_from_bytes`, the image codec `Image.open`) are modelled as oracle
functions collected in a `World` record; fallible Python calls become
`Except String` results whose error value is the exception message.
-/

/-- Raw payload bytes (`contents = await file.read()`). -/
abbrev Bytes := List Nat

/-- The `rapidocr.ModelType` enumeration values used by `app.py`. -/
inductive ModelTypeEnum where
  | MOBILE
  | SERVER
deriving DecidableEq, Repr

/-- The `rapidocr.OCRVersion` value used by `app.py`. -/
inductive OCRVersionEnum where
  | PPOCRV5
deriving DecidableEq, Repr

/-- The `rapidocr.LangRec` value used by `app.py`. -/
inductive LangRecEnum where
  | LATIN
deriving DecidableEq, Repr

/-- A value stored in the `params` dict passed to the `RapidOCR` constructor.
The `num` constructor represents a numeric tuning value such as a
`text_score` threshold; `app.py` never stores one (see claim C1). -/
inductive ParamValue where
  | modelType (m : ModelTypeEnum)
  | ocrVersion (v : OCRVersionEnum)
  | langRec (l : LangRecEnum)
  | num (q : ℚ)
deriving DecidableEq, Repr

/-- Environment default `TEXT_SCORE_THRESHOLD = float(os.getenv(..., "0.5"))`
(app.py line 12), modelled as the rational 1/2. -/
def TEXT_SCORE_THRESHOLD : ℚ := 1 / 2

/-- Environment default `MAX_FILE_SIZE_MB = int(os.getenv(..., "10"))`
(app.py line 13). -/
def MAX_FILE_SIZE_MB : Nat := 10

/-- A constructed `RapidOCR` engine instance, identified by the parameter
dict it was constructed with (app.py lines 33-41). -/
structure Engine where
  params : List (String × ParamValue)
deriving DecidableEq, Repr

/-- The process-wide `ocr_engines` dict (app.py line 25), as an
insertion-ordered association list; keys are unique because insertion is
guarded by a membership test. -/
abbrev Registry := List (String × Engine)

/-- Membership/lookup in the `ocr_engines` dict. -/
def dictFind : Registry → String → Option Engine
  | [], _ => none
  | (k, e) :: rest, key => if key = k then some e else dictFind rest key

/-- The `RapidOCR(params={...})` construction performed by `get_ocr_engine`
for a given `model_type` string (app.py lines 30-41): the params dict holds
exactly five entries and `model_enum` is `SERVER` iff the string equals
"server". -/
def makeEngine (model_type : String) : Engine :=
  let model_enum := if model_type = "server" then ModelTypeEnum.SERVER else ModelTypeEnum.MOBILE
  { params := [
      ("Det.model_type", ParamValue.modelType model_enum),
      ("Det.ocr_version", ParamValue.ocrVersion OCRVersionEnum.PPOCRV5),
      ("Rec.lang_type", ParamValue.langRec LangRecEnum.LATIN),
      ("Rec.model_type", ParamValue.modelType model_enum),
      ("Rec.ocr_version", ParamValue.ocrVersion OCRVersionEnum.PPOCRV5)] }

/-- `get_ocr_engine` (app.py lines 27-43): look the variant up in the
`ocr_engines` dict; on a miss construct an engine and append it. Returns the
engine together with the updated dict (the Python function mutates the
global dict; here the state is passed explicitly). -/
def get_ocr_engine (r : Registry) (model_type : String) : Engine × Registry :=
  match dictFind r model_type with
  | some e => (e, r)
  | none => (makeEngine model_type, r ++ [(model_type, makeEngine model_type)])

/-- A page bitmap (PIL image); only its identity matters here. -/
structure PageImage where
  id : Nat
deriving DecidableEq, Repr

/-- A detected text-box geometry (list of corner points). -/
abbrev Geometry := List (ℚ × ℚ)

/-- The two engine-output shapes the spec describes: an object exposing a
`txts` sequence of recognized strings (the `RapidOCROutput` shape), or a
bare sequence of `(geometry, text, confidence)` tuples. A `tuples` value
has no `txts` attribute, so Python's `hasattr(ocr_output, 'txts')` is false
on it; an `obj` value with an empty list models a falsy `txts`. -/
inductive OcrOutput where
  | obj (txts : List String)
  | tuples (items : List (Geometry × String × ℚ))
deriving DecidableEq, Repr

/-- The ordered sequence of recognized text strings carried by an engine
output, for either shape (the normalization target named by the spec). -/
def outputTexts : OcrOutput → List String
  | OcrOutput.obj txts => txts
  | OcrOutput.tuples items => items.map (fun it => it.2.1)

/-- The result-shape normalization of `process_image` (app.py lines 52-56):
if the output has a truthy `txts` attribute, join it with single
line-breaks; otherwise return the empty string. -/
def process_image (ocr_output : OcrOutput) : String :=
  match ocr_output with
  | OcrOutput.obj txts => if txts.isEmpty then "" else String.intercalate "\n" txts
  | OcrOutput.tuples _ => ""

/-- HTTP outcome of a request: a 200 JSON body
`{text, model_type, file_name}` or an error status with a detail string. -/
inductive HttpResult where
  | ok (text : String) (model_type : String) (file_name : Option String)
  | error (status : Nat) (detail : String)
deriving DecidableEq, Repr

/-- The external collaborators of the service: the PDF rasterizer, the
image codec and the recognition engine's call behaviour. An `Except.error`
value models the collaborator raising an exception with that message. -/
structure World where
  convert_from_bytes : Bytes → Except String (List PageImage)
  image_open : Bytes → Except String PageImage
  runEngine : Engine → PageImage → Except String OcrOutput

/-- One full `process_image(image, model_type)` call (app.py lines 46-59):
acquire the engine through the registry, invoke it, normalize the result.
An engine exception propagates (the Python `except` clause re-raises). -/
def process_image_full (w : World) (r : Registry) (model_type : String) (img : PageImage) :
    Except String String × Registry :=
  let er := get_ocr_engine r model_type
  match w.runEngine er.1 img with
  | Except.error e => (Except.error e, er.2)
  | Except.ok out => (Except.ok (process_image out), er.2)

/-- The per-page PDF loop of `ocr_endpoint` (app.py lines 105-109): process
pages in document order, appending each page's text to `all_text` only when
it is non-empty (Python string truthiness); the first exception aborts the
whole loop. -/
def process_pdf_pages (w : World) (model_type : String) :
    Registry → List PageImage → Except String (List String) × Registry
  | r, [] => (Except.ok [], r)
  | r, img :: rest =>
    match process_image_full w r model_type img with
    | (Except.error e, r') => (Except.error e, r')
    | (Except.ok text, r') =>
      match process_pdf_pages w model_type r' rest with
      | (Except.error e, r'') => (Except.error e, r'')
      | (Except.ok texts, r'') =>
        (Except.ok (if text = "" then texts else text :: texts), r'')

/-- The first four bytes of a PDF file, `b'%PDF'`. -/
def PDF_MAGIC : Bytes := [0x25, 0x50, 0x44, 0x46]

/-- Python's `str.split(".")` on a list of characters: always returns at
least one (possibly empty) part, one more part per dot. -/
def splitOnDot : List Char → List (List Char)
  | [] => [[]]
  | c :: rest =>
    match splitOnDot rest with
    | [] => [[]]
    | p :: ps => if c = '.' then [] :: p :: ps else (c :: p) :: ps

/-- The extension extraction of `ocr_endpoint` (app.py lines 93-97):
start from `""`; when a truthy filename is present, lowercase it, split on
`"."`, and keep the last part only when there are at least two parts. -/
def file_extension_of : Option String → String
  | none => ""
  | some fn =>
    if fn = "" then ""
    else
      let parts := splitOnDot (fn.data.map Char.toLower)
      if parts.length > 1 then String.mk (parts.getLastD []) else ""

/-- The document classification of `ocr_endpoint` (app.py line 100):
PDF iff the first four bytes equal `b'%PDF'` or the extracted extension is
`"pdf"`. -/
def classify_is_pdf (contents : Bytes) (filename : Option String) : Bool :=
  contents.take 4 = PDF_MAGIC || file_extension_of filename = "pdf"

/-- Spec-side notion (independent of the code's split-based computation):
the suffix of a character list strictly after its last `'.'`, or `none`
when it contains no `'.'`. -/
def suffix_after_last_dot : List Char → Option (List Char)
  | [] => none
  | c :: rest =>
    match suffix_after_last_dot rest with
    | some t => some t
    | none => if c = '.' then some rest else none

/-- Spec-side notion: the lowercase suffix of a filename after its last
`"."`, when any dot is present. -/
def lower_suffix_after_last_dot (fn : String) : Option String :=
  (suffix_after_last_dot (fn.data.map Char.toLower)).map String.mk

/-- The body of `ocr_endpoint` after FastAPI parameter validation
(app.py lines 83-128): size check (413), classification, PDF or image
branch, catch-all mapping of any exception to a 500 whose detail prefixes
the message with "Error processing file: ". -/
def ocr_body (w : World) (maxFileSizeMB : Nat) (r : Registry)
    (contents : Bytes) (filename : Option String) (model_type : String) :
    HttpResult × Registry :=
  if contents.length > maxFileSizeMB * 1024 * 1024 then
    (HttpResult.error 413 ("File too large. Maximum size is " ++ toString maxFileSizeMB ++ "MB"), r)
  else if classify_is_pdf contents filename then
    match w.convert_from_bytes contents with
    | Except.error e => (HttpResult.error 500 ("Error processing file: " ++ e), r)
    | Except.ok images =>
      match process_pdf_pages w model_type r images with
      | (Except.error e, r') => (HttpResult.error 500 ("Error processing file: " ++ e), r')
      | (Except.ok all_text, r') =>
        (HttpResult.ok (String.intercalate "\n\n" all_text) model_type filename, r')
  else
    match w.image_open contents with
    | Except.error e => (HttpResult.error 500 ("Error processing file: " ++ e), r)
    | Except.ok img =>
      match process_image_full w r model_type img with
      | (Except.error e, r') => (HttpResult.error 500 ("Error processing file: " ++ e), r')
      | (Except.ok text, r') => (HttpResult.ok text model_type filename, r')

/-- The anchored alternation `^(mobile|server)$` used as the `model_type`
query-parameter constraint (app.py line 71): it matches exactly the two
literal strings. -/
def model_type_regex_matches (s : String) : Bool :=
  s = "mobile" || s = "server"

/-- The full request handling of `POST /ocr`, including the FastAPI layer:
an absent `model_type` defaults to "mobile"; a present value failing the
regex is rejected with a 422 validation error before the endpoint body
(and hence before any payload work) runs. -/
def handle_ocr_request (w : World) (maxFileSizeMB : Nat) (r : Registry)
    (contents : Bytes) (filename : Option String) (model_type_q : Option String) :
    HttpResult × Registry :=
  match model_type_q with
  | none => ocr_body w maxFileSizeMB r contents filename "mobile"
  | some s =>
    if model_type_regex_matches s then ocr_body w maxFileSizeMB r contents filename s
    else (HttpResult.error 422 "model_type does not match pattern (mobile|server)", r)

/-- A concrete collaborator world: a three-page PDF whose middle page
yields no text, used to exercise the join behaviour. -/
def demoWorld : World where
  convert_from_bytes := fun _ => Except.ok [⟨1⟩, ⟨2⟩, ⟨3⟩]
  image_open := fun _ => Except.ok ⟨1⟩
  runEngine := fun _ img =>
    Except.ok (OcrOutput.obj (if img.id = 2 then [] else ["Page " ++ toString img.id]))

/-- A concrete collaborator world: a two-page PDF whose first page yields
text and whose second page makes the engine raise. -/
def failWorld : World where
  convert_from_bytes := fun _ => Except.ok [⟨1⟩, ⟨2⟩]
  image_open := fun _ => Except.ok ⟨1⟩
  runEngine := fun _ img =>
    if img.id = 2 then Except.error "boom" else Except.ok (OcrOutput.obj ["Page 1"])

/-- A concrete collaborator world: a structurally valid PDF that rasterizes
to zero pages. -/
def emptyPdfWorld : World where
  convert_from_bytes := fun _ => Except.ok []
  image_open := fun _ => Except.ok ⟨1⟩
  runEngine := fun _ _ => Except.ok (OcrOutput.obj ["unused"])

theorem dictFind_append_of_none (r : Registry) (k key : String) (e : Engine)
    (h : dictFind r key = none) :
    dictFind (r ++ [(k, e)]) key = if key = k then some e else none := by
  induction r with
  | nil => simp [dictFind]
  | cons kv rest ih =>
    obtain ⟨k', e'⟩ := kv
    by_cases hk : key = k'
    · simp [dictFind, hk] at h
    · simp [dictFind, hk] at h ⊢
      exact ih h

theorem dictFind_append_of_some (r : Registry) (k key : String) (e e' : Engine)
    (h : dictFind r key = some e') :
    dictFind (r ++ [(k, e)]) key = some e' := by
  induction r with
  | nil => simp [dictFind] at h
  | cons kv rest ih =>
    obtain ⟨k'', e''⟩ := kv
    by_cases hk : key = k''
    · simp [dictFind, hk] at h ⊢
      exact h
    · simp [dictFind, hk] at h ⊢
      exact ih h

theorem get_ocr_engine_stable (r : Registry) (k : String) :
    get_ocr_engine (get_ocr_engine r k).2 k = ((get_ocr_engine r k).1, (get_ocr_engine r k).2) := by
  cases h : dictFind r k with
  | some e => simp [get_ocr_engine, h]
  | none =>
    have hfind : dictFind (r ++ [(k, makeEngine k)]) k = some (makeEngine k) := by
      rw [dictFind_append_of_none r k k (makeEngine k) h]
      simp
    simp [get_ocr_engine, h, hfind]

theorem splitOnDot_ne_nil (cs : List Char) : splitOnDot cs ≠ [] := by
  cases cs with
  | nil => simp [splitOnDot]
  | cons c rest =>
    cases h : splitOnDot rest with
    | nil => simp [splitOnDot, h]
    | cons p ps =>
      by_cases hc : c = '.' <;> simp [splitOnDot, h, hc]

theorem splitOnDot_suffix (cs : List Char) :
    ((splitOnDot cs).length > 1 ↔ (suffix_after_last_dot cs).isSome = true)
    ∧ (splitOnDot cs).getLastD [] = (suffix_after_last_dot cs).getD cs := by
  induction cs with
  | nil => simp [splitOnDot, suffix_after_last_dot]
  | cons c rest ih =>
    obtain ⟨ih1, ih2⟩ := ih
    cases hsp : splitOnDot rest with
    | nil => exact absurd hsp (splitOnDot_ne_nil rest)
    | cons p ps =>
      rw [hsp] at ih1 ih2
      cases hsuf : suffix_after_last_dot rest with
      | some t =>
        rw [hsuf] at ih1 ih2
        have hps : ps ≠ [] := by
          have hlen := ih1.mpr rfl
          intro hnil
          rw [hnil] at hlen
          simp at hlen
        obtain ⟨q, qs, hqs⟩ := List.exists_cons_of_ne_nil hps
        by_cases hc : c = '.'
        · constructor
          · simp [splitOnDot, hsp, suffix_after_last_dot, hsuf, hc]
          · simp only [splitOnDot, hsp, suffix_after_last_dot, hsuf, hc, if_pos,
              Option.getD_some] at ih2 ⊢
            rw [List.getLastD_cons, List.getLastD_cons]
            rw [List.getLastD_cons] at ih2
            exact ih2
        · constructor
          · simp [splitOnDot, hsp, suffix_after_last_dot, hsuf, hc, hqs]
          · simp only [splitOnDot, hsp, suffix_after_last_dot, hsuf, hc, if_neg,
              Option.getD_some, ite_false] at ih2 ⊢
            rw [List.getLastD_cons] at ih2 ⊢
            rw [hqs] at ih2 ⊢
            rw [List.getLastD_cons] at ih2 ⊢
            exact ih2
      | none =>
        rw [hsuf] at ih1 ih2
        have hps : ps = [] := by
          by_contra hnil
          have hlen : (p :: ps).length > 1 := by
            cases ps with
            | nil => exact absurd rfl hnil
            | cons q qs => simp
          have := ih1.mp hlen
          simp at this
        subst hps
        have hp : p = rest := by
          simpa [List.getLastD] using ih2
        by_cases hc : c = '.'
        · constructor
          · simp [splitOnDot, hsp, suffix_after_last_dot, hsuf, hc]
          · simp only [splitOnDot, hsp, suffix_after_last_dot, hsuf, hc, if_pos,
              Option.getD_some]
            rw [List.getLastD_cons, List.getLastD_cons, List.getLastD_nil, hp]
        · constructor
          · simp [splitOnDot, hsp, suffix_after_last_dot, hsuf, hc]
          · simp only [splitOnDot, hsp, suffix_after_last_dot, hsuf, hc, ite_false,
              Option.getD_none]
            rw [List.getLastD_cons, List.getLastD_nil, hp]

theorem file_extension_pdf_iff (fn? : Option String) :
    (file_extension_of fn? = "pdf") ↔ fn?.bind lower_suffix_after_last_dot = some "pdf" := by
  cases fn? with
  | none => simp [file_extension_of]
  | some fn =>
    by_cases hfn : fn = ""
    · subst hfn
      simp [file_extension_of, lower_suffix_after_last_dot, suffix_after_last_dot,
        String.data]
    · obtain ⟨h1, h2⟩ := splitOnDot_suffix (fn.data.map Char.toLower)
      simp only [file_extension_of, if_neg hfn, Option.bind]
      cases hsuf : suffix_after_last_dot (fn.data.map Char.toLower) with
      | none =>
        rw [hsuf] at h1
        have hlen : ¬ (splitOnDot (fn.data.map Char.toLower)).length > 1 := by
          rw [h1]; simp
        simp [hlen, lower_suffix_after_last_dot, hsuf]
      | some t =>
        rw [hsuf] at h1 h2
        have hlen : (splitOnDot (fn.data.map Char.toLower)).length > 1 := h1.mpr rfl
        rw [if_pos hlen, h2]
        simp [lower_suffix_after_last_dot, hsuf]

theorem process_pdf_pages_ok (w : World) (mt : String) (f : PageImage → OcrOutput)
    (ps : List PageImage) :
    ∀ r : Registry, (∀ img, w.runEngine (get_ocr_engine r mt).1 img = Except.ok (f img)) →
      process_pdf_pages w mt r ps =
        (Except.ok ((ps.map (fun i => process_image (f i))).filter (fun t => !(t == ""))),
         if ps.isEmpty then r else (get_ocr_engine r mt).2) := by
  induction ps with
  | nil => intro r hrun; simp [process_pdf_pages]
  | cons img rest ih =>
    intro r hrun
    have hstable := get_ocr_engine_stable r mt
    have h1 : process_image_full w r mt img =
        (Except.ok (process_image (f img)), (get_ocr_engine r mt).2) := by
      simp [process_image_full, hrun img]
    have hrun' : ∀ i, w.runEngine (get_ocr_engine (get_ocr_engine r mt).2 mt).1 i =
        Except.ok (f i) := by
      intro i
      rw [hstable]
      exact hrun i
    have h2 := ih (get_ocr_engine r mt).2 hrun'
    simp only [process_pdf_pages, h1, h2]
    rw [hstable]
    by_cases hempty : process_image (f img) = ""
    · have hb : (process_image (f img) == "") = true := beq_iff_eq.mpr hempty
      simp [hempty, hb, List.filter, ite_self]
    · have hb : (process_image (f img) == "") = false := beq_eq_false_iff_ne.mpr hempty
      simp [hempty, hb, List.filter, ite_self]

/-- Claim C1: the spec states that the configured text-confidence threshold
(TEXT_SCORE_THRESHOLD, default 0.5) is part of the configuration profile
passed to the constructed engine. The code contradicts this: the params
dict built by `get_ocr_engine` (app.py lines 33-41) holds exactly the five
model/version/language keys, contains no text-score key, and carries no
numeric value at all — so no threshold (in particular not
TEXT_SCORE_THRESHOLD) is passed to the engine, which the env var being read
at app.py line 12 and the "same config as app.py" comment plus explicit
text_score entry in test_local.py show to be a slip in the code. -/
theorem C1_threshold_not_in_params :
    ((get_ocr_engine [] "mobile").1.params.map Prod.fst).contains "text_score" = false
    ∧ ((get_ocr_engine [] "server").1.params.map Prod.fst).contains "text_score" = false
    ∧ ((get_ocr_engine [] "mobile").1.params.all
        (fun kv => match kv.2 with | ParamValue.num _ => false | _ => true)) = true
    ∧ ((get_ocr_engine [] "server").1.params.all
        (fun kv => match kv.2 with | ParamValue.num _ => false | _ => true)) = true
    ∧ (get_ocr_engine [] "mobile").1.params.map Prod.fst =
        ["Det.model_type", "Det.ocr_version", "Rec.lang_type", "Rec.model_type",
         "Rec.ocr_version"] := by
  refine ⟨rfl, rfl, rfl, rfl, rfl⟩

/-- Claim C2 counterexample: `process_image` does not normalize the
tuple-shaped engine output. On a tuple list carrying the recognized text
"HOLA MUNDO" it returns the empty string instead of the join of the
output's recognized text strings, refuting the claim at this input. -/
theorem C2_counterexample :
    process_image (OcrOutput.tuples [([((0 : ℚ), (0 : ℚ))], "HOLA MUNDO", (9 : ℚ) / 10)]) ≠
      String.intercalate "\n"
        (outputTexts (OcrOutput.tuples [([((0 : ℚ), (0 : ℚ))], "HOLA MUNDO", (9 : ℚ) / 10)])) := by
  decide

/-- Claim C2 (amended): `process_image` normalizes only the object shape:
when the output exposes a non-empty `txts` sequence it returns the
sequence joined by single line-breaks in the engine's order, and in every
other case — an empty `txts` sequence, or the tuple shape regardless of
its contents — it returns the empty string, not an error. -/
theorem C2_normalization (txts : List String) (items : List (Geometry × String × ℚ))
    (h : txts ≠ []) :
    process_image (OcrOutput.obj txts) = String.intercalate "\n" txts
    ∧ process_image (OcrOutput.obj []) = ""
    ∧ process_image (OcrOutput.tuples items) = "" := by
  refine ⟨?_, rfl, rfl⟩
  cases txts with
  | nil => exact absurd rfl h
  | cons a l => rfl

/-- Witness for C2: the amended normalization evaluated at concrete
outputs of both shapes. -/
theorem C2_normalization_witness :
    process_image (OcrOutput.obj ["HOLA", "MUNDO"]) = "HOLA\nMUNDO"
    ∧ process_image (OcrOutput.tuples [([((1 : ℚ), (1 : ℚ))], "HOLA", (3 : ℚ) / 4)]) = "" := by
  have h := C2_normalization ["HOLA", "MUNDO"]
    [([((1 : ℚ), (1 : ℚ))], "HOLA", (3 : ℚ) / 4)] (by decide)
  exact ⟨h.1, h.2.2⟩

/-- Claim C3: the engine registry constructs at most once per variant: a
hit returns the stored engine with the registry unchanged; a miss appends
exactly one entry; calling again with the same variant afterwards returns
the same engine and leaves the registry unchanged; and existing entries
are never replaced (the mapping only grows). -/
theorem C3_registry_caching (r : Registry) (k : String) :
    (∀ e, dictFind r k = some e → get_ocr_engine r k = (e, r))
    ∧ (dictFind r k = none →
        get_ocr_engine r k = (makeEngine k, r ++ [(k, makeEngine k)]))
    ∧ get_ocr_engine (get_ocr_engine r k).2 k = ((get_ocr_engine r k).1, (get_ocr_engine r k).2)
    ∧ (∀ k' e', dictFind r k' = some e' → dictFind (get_ocr_engine r k).2 k' = some e') := by
  refine ⟨?_, ?_, get_ocr_engine_stable r k, ?_⟩
  · intro e h
    simp [get_ocr_engine, h]
  · intro h
    simp [get_ocr_engine, h]
  · intro k' e' h
    cases hfind : dictFind r k with
    | some e => simp [get_ocr_engine, hfind, h]
    | none =>
      simp only [get_ocr_engine, hfind]
      exact dictFind_append_of_some r k k' (makeEngine k) e' h

/-- Witness for C3: a first call on an empty registry stores the engine,
and a repeated call returns the stored instance without change. -/
theorem C3_registry_caching_witness :
    get_ocr_engine [] "mobile" = (makeEngine "mobile", [("mobile", makeEngine "mobile")])
    ∧ get_ocr_engine [("server", makeEngine "server")] "server" =
        (makeEngine "server", [("server", makeEngine "server")]) := by
  exact ⟨(C3_registry_caching [] "mobile").2.1 rfl,
         (C3_registry_caching [("server", makeEngine "server")] "server").1
           (makeEngine "server") rfl⟩

/-- Claim C9: `get_ocr_engine` is total over all string keys: for any
variant string other than "server" that is not yet registered, it
constructs an engine whose detection and recognition model types are both
MOBILE and caches it under that exact key; nothing in the registry bounds
the key set to the two enumerated variants. -/
theorem C9_registry_total (r : Registry) (s : String) (hs : s ≠ "server")
    (habs : dictFind r s = none) :
    get_ocr_engine r s = (makeEngine s, r ++ [(s, makeEngine s)])
    ∧ (makeEngine s).params =
        [("Det.model_type", ParamValue.modelType ModelTypeEnum.MOBILE),
         ("Det.ocr_version", ParamValue.ocrVersion OCRVersionEnum.PPOCRV5),
         ("Rec.lang_type", ParamValue.langRec LangRecEnum.LATIN),
         ("Rec.model_type", ParamValue.modelType ModelTypeEnum.MOBILE),
         ("Rec.ocr_version", ParamValue.ocrVersion OCRVersionEnum.PPOCRV5)]
    ∧ dictFind (r ++ [(s, makeEngine s)]) s = some (makeEngine s) := by
  refine ⟨?_, ?_, ?_⟩
  · simp [get_ocr_engine, habs]
  · simp [makeEngine, hs]
  · rw [dictFind_append_of_none r s s (makeEngine s) habs]
    simp

/-- Witness for C9: the unregistered variant "huge" yields and caches a
mobile-configured engine under the key "huge". -/
theorem C9_registry_total_witness :
    get_ocr_engine [] "huge" = (makeEngine "huge", [("huge", makeEngine "huge")])
    ∧ dictFind [("huge", makeEngine "huge")] "huge" = some (makeEngine "huge") := by
  have h := C9_registry_total [] "huge" (by decide) rfl
  exact ⟨h.1, h.2.2⟩

/-- Claim C5: document classification yields PDF whenever the first four
payload bytes equal the `%PDF` magic, regardless of the filename; when the
magic check fails, it yields PDF exactly when the filename's lowercase
suffix after the last "." is "pdf"; in every other case — no dot, empty
filename, or no filename — it yields IMAGE (classification is a total
function, so no exception is possible). -/
theorem C5_classification (contents : Bytes) (fn? : Option String) :
    (contents.take 4 = PDF_MAGIC → classify_is_pdf contents fn? = true)
    ∧ (contents.take 4 ≠ PDF_MAGIC →
        (classify_is_pdf contents fn? = true ↔
          fn?.bind lower_suffix_after_last_dot = some "pdf")) := by
  constructor
  · intro h
    simp [classify_is_pdf, h]
  · intro h
    rw [← file_extension_pdf_iff]
    simp [classify_is_pdf, h]

/-- Witness for C5: a payload with the PDF magic is classified PDF even
under a ".png" filename; without the magic, an uppercase ".PDF" suffix
still classifies as PDF; a dotless filename classifies as IMAGE. -/
theorem C5_classification_witness :
    classify_is_pdf [0x25, 0x50, 0x44, 0x46] (some "image.png") = true
    ∧ classify_is_pdf [0x00] (some "scan.PDF") = true := by
  refine ⟨(C5_classification [0x25, 0x50, 0x44, 0x46] (some "image.png")).1 rfl, ?_⟩
  exact ((C5_classification [0x00] (some "scan.PDF")).2 (by decide)).mpr (by decide)

/-- Claim C4: for a PDF payload whose pages yield per-page texts in
document order, the response text is the sequence of non-empty page texts,
in the same order, joined by the two-character separator between them;
empty page texts are skipped entirely, leaving no blank segment. -/
theorem C4_pdf_join (w : World) (maxFileSizeMB : Nat) (r : Registry) (contents : Bytes)
    (fn? : Option String) (mt : String) (ps : List PageImage) (f : PageImage → OcrOutput)
    (hsize : ¬ contents.length > maxFileSizeMB * 1024 * 1024)
    (hclass : classify_is_pdf contents fn? = true)
    (hconv : w.convert_from_bytes contents = Except.ok ps)
    (hrun : ∀ img, w.runEngine (get_ocr_engine r mt).1 img = Except.ok (f img)) :
    (ocr_body w maxFileSizeMB r contents fn? mt).1 =
      HttpResult.ok
        (String.intercalate "\n\n"
          ((ps.map (fun i => process_image (f i))).filter (fun t => !(t == ""))))
        mt fn? := by
  have h := process_pdf_pages_ok w mt f ps r hrun
  simp [ocr_body, hsize, hclass, hconv, h]

/-- Witness for C4: a three-page PDF whose middle page yields no text
produces page-1-text, a blank line, then page-3-text — no blank middle
segment. -/
theorem C4_pdf_join_witness :
    (ocr_body demoWorld 10 [] PDF_MAGIC none "mobile").1 =
      HttpResult.ok "Page 1\n\nPage 3" "mobile" none := by
  have h := C4_pdf_join demoWorld 10 [] PDF_MAGIC none "mobile" [⟨1⟩, ⟨2⟩, ⟨3⟩]
    (fun img => OcrOutput.obj (if img.id = 2 then [] else ["Page " ++ toString img.id]))
    (by decide) (by decide) rfl (fun _ => rfl)
  rw [h]
  rfl

/-- Claim C6: a payload strictly longer than maxFileSizeMB * 1024 * 1024
bytes is rejected with 413 and the "File too large" detail; the registry is
returned unchanged and the result is the same for every collaborator world,
so no classification, decoding, rasterization or engine work happens. A
payload of exactly the maximum length is never rejected with 413. -/
theorem C6_size_limit (w : World) (maxFileSizeMB : Nat) (r : Registry) (contents : Bytes)
    (fn? : Option String) (mt : String) :
    (contents.length > maxFileSizeMB * 1024 * 1024 →
      ocr_body w maxFileSizeMB r contents fn? mt =
        (HttpResult.error 413
          ("File too large. Maximum size is " ++ toString maxFileSizeMB ++ "MB"), r))
    ∧ (contents.length = maxFileSizeMB * 1024 * 1024 →
        ∀ d, (ocr_body w maxFileSizeMB r contents fn? mt).1 ≠ HttpResult.error 413 d) := by
  constructor
  · intro h
    simp [ocr_body, h]
  · intro h d
    have hng : ¬ contents.length > maxFileSizeMB * 1024 * 1024 := by omega
    by_cases hcl : classify_is_pdf contents fn? = true
    · simp only [ocr_body, if_neg hng, hcl, if_pos]
      cases hc : w.convert_from_bytes contents with
      | error e => simp
      | ok imgs =>
        rcases hp : process_pdf_pages w mt r imgs with ⟨res, r'⟩
        cases res with
        | error e => simp [hp]
        | ok texts => simp [hp]
    · simp only [ocr_body, if_neg hng, hcl, if_neg, Bool.false_eq_true, ite_false]
      cases hi : w.image_open contents with
      | error e => simp
      | ok img =>
        rcases hpf : process_image_full w r mt img with ⟨res, r'⟩
        cases res with
        | error e => simp [hpf]
        | ok text => simp [hpf]

/-- Witness for C6: with a configured maximum of 0 MB, a one-byte payload
is rejected with 413 and an unchanged registry. -/
theorem C6_size_limit_witness :
    ocr_body demoWorld 0 [] [0] none "mobile" =
      (HttpResult.error 413 "File too large. Maximum size is 0MB", []) := by
  have h := (C6_size_limit demoWorld 0 [] [0] none "mobile").1 (by decide)
  rw [h]
  rfl

/-- Claim C7: after the size check passes, any exception raised by a
collaborator — PDF rasterization, image decoding, or recognition (whether
on the single image or on any page of a multi-page document) — yields a
500 whose detail is exactly "Error processing file: " followed by the
exception's message; the error result carries no text field, so no partial
extracted text is returned even when earlier pages had succeeded. -/
theorem C7_error_mapping (w : World) (maxFileSizeMB : Nat) (r : Registry) (contents : Bytes)
    (fn? : Option String) (mt : String)
    (hsize : ¬ contents.length > maxFileSizeMB * 1024 * 1024) :
    (∀ e, classify_is_pdf contents fn? = true →
      w.convert_from_bytes contents = Except.error e →
      ocr_body w maxFileSizeMB r contents fn? mt =
        (HttpResult.error 500 ("Error processing file: " ++ e), r))
    ∧ (∀ e ps r', classify_is_pdf contents fn? = true →
        w.convert_from_bytes contents = Except.ok ps →
        process_pdf_pages w mt r ps = (Except.error e, r') →
        ocr_body w maxFileSizeMB r contents fn? mt =
          (HttpResult.error 500 ("Error processing file: " ++ e), r'))
    ∧ (∀ e, classify_is_pdf contents fn? = false →
        w.image_open contents = Except.error e →
        ocr_body w maxFileSizeMB r contents fn? mt =
          (HttpResult.error 500 ("Error processing file: " ++ e), r))
    ∧ (∀ e img r', classify_is_pdf contents fn? = false →
        w.image_open contents = Except.ok img →
        process_image_full w r mt img = (Except.error e, r') →
        ocr_body w maxFileSizeMB r contents fn? mt =
          (HttpResult.error 500 ("Error processing file: " ++ e), r')) := by
  refine ⟨?_, ?_, ?_, ?_⟩
  · intro e hcl hc
    simp [ocr_body, hsize, hcl, hc]
  · intro e ps r' hcl hc hp
    simp [ocr_body, hsize, hcl, hc, hp]
  · intro e hcl hi
    simp [ocr_body, hsize, hcl, hi]
  · intro e img r' hcl hi hpf
    simp [ocr_body, hsize, hcl, hi, hpf]

/-- Witness for C7: a two-page PDF whose first page yields text and whose
second page makes the engine raise "boom" produces the plain 500 error
with the prefixed message and no partial text (the constructed engine
stays cached). -/
theorem C7_error_mapping_witness :
    ocr_body failWorld 10 [] PDF_MAGIC (some "doc.pdf") "mobile" =
      (HttpResult.error 500 "Error processing file: boom",
       [("mobile", makeEngine "mobile")]) := by
  have h := (C7_error_mapping failWorld 10 [] PDF_MAGIC (some "doc.pdf") "mobile"
      (by decide)).2.1 "boom" [⟨1⟩, ⟨2⟩] [("mobile", makeEngine "mobile")]
      (by decide) rfl rfl
  rw [h]
  rfl

/-- Claim C8: the model_type query parameter is accepted exactly when it
matches the anchored alternation of "mobile" and "server"; an absent
parameter defaults to "mobile"; any other value is rejected with a 422
validation error whose result is a constant independent of the payload and
of every collaborator, hence before any decoding or recognition work. -/
theorem C8_model_type_validation (w : World) (maxFileSizeMB : Nat) (r : Registry)
    (contents : Bytes) (fn? : Option String) :
    handle_ocr_request w maxFileSizeMB r contents fn? none =
      ocr_body w maxFileSizeMB r contents fn? "mobile"
    ∧ (∀ s, model_type_regex_matches s = true ↔ (s = "mobile" ∨ s = "server"))
    ∧ (∀ s, model_type_regex_matches s = true →
        handle_ocr_request w maxFileSizeMB r contents fn? (some s) =
          ocr_body w maxFileSizeMB r contents fn? s)
    ∧ (∀ s, model_type_regex_matches s = false →
        handle_ocr_request w maxFileSizeMB r contents fn? (some s) =
          (HttpResult.error 422 "model_type does not match pattern (mobile|server)", r)) := by
  refine ⟨rfl, ?_, ?_, ?_⟩
  · intro s
    simp [model_type_regex_matches]
  · intro s h
    simp [handle_ocr_request, h]
  · intro s h
    simp [handle_ocr_request, h]

/-- Witness for C8: the value "huge" is rejected with 422 and an unchanged
registry on an arbitrary payload, while an absent parameter runs the body
with the default "mobile". -/
theorem C8_model_type_validation_witness :
    handle_ocr_request demoWorld 10 [] [0] none (some "huge") =
      (HttpResult.error 422 "model_type does not match pattern (mobile|server)", [])
    ∧ handle_ocr_request demoWorld 10 [] [0] none none =
      ocr_body demoWorld 10 [] [0] none "mobile" := by
  exact ⟨(C8_model_type_validation demoWorld 10 [] [0] none).2.2.2 "huge" (by decide),
         (C8_model_type_validation demoWorld 10 [] [0] none).1⟩

/-- Claim C10: a PDF payload that rasterizes to zero pages is not an
error: the endpoint returns a 200 body whose text is the empty string (the
join of an empty list of page texts) together with the supplied model_type
and file_name, and the registry is untouched (no engine call happens). -/
theorem C10_zero_page_pdf (w : World) (maxFileSizeMB : Nat) (r : Registry) (contents : Bytes)
    (fn? : Option String) (mt : String)
    (hsize : ¬ contents.length > maxFileSizeMB * 1024 * 1024)
    (hclass : classify_is_pdf contents fn? = true)
    (hconv : w.convert_from_bytes contents = Except.ok []) :
    ocr_body w maxFileSizeMB r contents fn? mt = (HttpResult.ok "" mt fn?, r) := by
  simp [ocr_body, hsize, hclass, hconv, process_pdf_pages]
  rfl

/-- Witness for C10: a magic-bytes PDF rasterizing to zero pages yields a
200 with empty text, the supplied model_type "server" and the supplied
file name. -/
theorem C10_zero_page_pdf_witness :
    ocr_body emptyPdfWorld 10 [] PDF_MAGIC (some "blank.pdf") "server" =
      (HttpResult.ok "" "server" (some "blank.pdf"), []) := by
  exact C10_zero_page_pdf emptyPdfWorld 10 [] PDF_MAGIC (some "blank.pdf") "server"
    (by decide) (by decide) rfl
